import Mathlib

/-!
Shallow embedding of the GitTTY repository synchronization engine
(`src/modules/git_operations.py` and `src/modules/config_manager.py`)
together with theorems settling the specification claims.
-/

/-! ## Error translator (`translate_git_error`, git_operations.py lines 180-226) -/

/-- The error taxonomy of the specification; each constructor corresponds to one
branch of `translate_git_error`. -/
inductive ErrorCategory where
  | RepositoryNotFound
  | AuthenticationFailed
  | SshPermissionDenied
  | DnsResolutionFailed
  | WorkingTreeWouldBeOverwritten
  | NotAGitRepository
  | DestinationNotEmpty
  | Unknown
  deriving DecidableEq, Repr

/-- Contiguous-sublist test: `listContains sub hay = true` iff `sub` occurs as
a contiguous sublist of `hay` (Python's `sub in hay` on strings). -/
def listContains (sub : List Char) : List Char → Bool
  | [] => sub.isEmpty
  | c :: cs => sub.isPrefixOf (c :: cs) || listContains sub cs

/-- Python substring test `sub in s`: case preserved, plain substring search. -/
def containsSub (s sub : String) : Bool :=
  listContains sub.toList s.toList

/-- Python `str.lower()` (ASCII range, which covers every tested substring). -/
def toLowerStr (s : String) : String :=
  String.mk (s.toList.map Char.toLower)

/-- Surrounding-whitespace removal on a character list. -/
def trimChars (cs : List Char) : List Char :=
  ((cs.dropWhile Char.isWhitespace).reverse.dropWhile Char.isWhitespace).reverse

/-- Python `str.strip()`: leading and trailing whitespace removed. -/
def trimStr (s : String) : String :=
  String.mk (trimChars s.toList)

/-- Split a character list at every newline character. -/
def splitLinesAux (cs : List Char) (acc : List Char) : List (List Char) :=
  match cs with
  | [] => [acc.reverse]
  | c :: rest =>
    if c == '\n' then acc.reverse :: splitLinesAux rest []
    else splitLinesAux rest (c :: acc)

/-- The line decomposition Python's file iteration performs (split at
newlines; the per-line `strip()` later removes any carriage returns). -/
def splitLines (s : String) : List String :=
  (splitLinesAux s.toList []).map String.mk

/-- Which branch of `translate_git_error` fires: the code lowercases `stderr`
and tests the seven fixed substrings in source order, first match wins. -/
def translate_git_error_category (stderr : String) : ErrorCategory :=
  let s := toLowerStr stderr
  if containsSub s "repository not found" then .RepositoryNotFound
  else if containsSub s "authentication failed" then .AuthenticationFailed
  else if containsSub s "permission denied (publickey)" then .SshPermissionDenied
  else if containsSub s "could not resolve host" then .DnsResolutionFailed
  else if containsSub s "your local changes to the following files would be overwritten by merge" then
    .WorkingTreeWouldBeOverwritten
  else if containsSub s "not a git repository" then .NotAGitRepository
  else if containsSub s "already exists and is not an empty directory" then .DestinationNotEmpty
  else .Unknown

/-- The message returned by `translate_git_error` on each branch; the `Unknown`
fallback embeds `stderr.strip()` between fixed banner lines. -/
def remediationMessage (stderr : String) : ErrorCategory → String
  | .RepositoryNotFound =>
      "Error: Repository not found.\nSuggestion: Double-check the URL for typos. If it's a private repository, ensure you have the necessary permissions."
  | .AuthenticationFailed =>
      "Error: Authentication failed.\nSuggestion: For HTTPS, check your username and password (or personal access token). For SSH, ensure your SSH key is correctly set up."
  | .SshPermissionDenied =>
      "Error: SSH Permission Denied.\nSuggestion: Verify that your SSH key is added to your SSH agent and registered with your Git provider (e.g., GitHub, GitLab)."
  | .DnsResolutionFailed =>
      "Error: Could not resolve host.\nSuggestion: Check your internet connection and DNS settings. Try to ping the host."
  | .WorkingTreeWouldBeOverwritten =>
      "Error: Local changes would be overwritten by pull.\nSuggestion: Stash or commit your local changes before pulling the updates. You can use 'git stash' to save them temporarily."
  | .NotAGitRepository =>
      "Error: Not a Git repository.\nSuggestion: Make sure you are in the correct directory that contains the .git folder."
  | .DestinationNotEmpty =>
      "Error: Destination path already exists and is not empty.\nSuggestion: Please choose a different directory or remove the existing one if it's not needed."
  | .Unknown =>
      "An unexpected Git error occurred. Raw error:\n---\n" ++ trimStr stderr ++ "\n---"

/-- `translate_git_error` from git_operations.py: the human-readable message of
whichever branch fires. -/
def translate_git_error (stderr : String) : String :=
  remediationMessage stderr (translate_git_error_category stderr)

/-! ## Progress parser (`parse_git_progress`, git_operations.py lines 21-76)

The three regular expressions of the source are embedded as deterministic
left-to-right matchers over `List Char`; `searchAux` reproduces `re.search`'s
leftmost-position scan. -/

/-- A parsed progress event, mirroring the dict returned by
`parse_git_progress` (keys type/percent/current/total and, for the receiving
pattern, size/speed). -/
structure ProgressInfo where
  type : String
  percent : Nat
  current : Nat
  total : Nat
  size : Option String := none
  speed : Option String := none
  deriving DecidableEq, Repr

/-- Numeric value of a run of decimal digit characters. -/
def natOfDigits (ds : List Char) : Nat :=
  ds.foldl (fun n c => 10 * n + (c.toNat - 48)) 0

/-- Match a literal at the head of the input, returning the remainder. -/
def dropLit (lit cs : List Char) : Option (List Char) :=
  if lit.isPrefixOf cs then some (cs.drop lit.length) else none

/-- Regex fragment `\s*(\d+)%\s*\((\d+)/(\d+)\)`: percent, current and total,
returning the remaining input. -/
def matchPCT (cs : List Char) : Option (Nat × Nat × Nat × List Char) :=
  let (ds, r1) := (cs.dropWhile Char.isWhitespace).span Char.isDigit
  if ds.isEmpty then none else
  match r1 with
  | '%' :: r2 =>
    match (r2.dropWhile Char.isWhitespace) with
    | '(' :: r3 =>
      let (cur, r4) := r3.span Char.isDigit
      if cur.isEmpty then none else
      match r4 with
      | '/' :: r5 =>
        let (tot, r6) := r5.span Char.isDigit
        if tot.isEmpty then none else
        match r6 with
        | ')' :: r7 => some (natOfDigits ds, natOfDigits cur, natOfDigits tot, r7)
        | _ => none
      | _ => none
    | _ => none
  | _ => none

/-- Regex fragment `[\d.]+\s*[KMGT]?i?B` (the captured size token), returning
the consumed characters and the remainder. -/
def sizeTok (cs : List Char) : Option (List Char × List Char) :=
  let (ds, r1) := cs.span (fun c => c.isDigit || c == '.')
  if ds.isEmpty then none else
  let (ws, r2) := r1.span Char.isWhitespace
  let (unit, r3) :=
    match r2 with
    | c :: t => if c == 'K' || c == 'M' || c == 'G' || c == 'T' then ([c], t) else (([] : List Char), r2)
    | [] => ([], r2)
  let (ic, r4) :=
    match r3 with
    | c :: t => if c == 'i' then ([c], t) else (([] : List Char), r3)
    | [] => ([], r3)
  match r4 with
  | 'B' :: t => some (ds ++ ws ++ unit ++ ic ++ ['B'], t)
  | _ => none

/-- Regex fragment `[\d.]+\s*[KMGT]?i?B/s` (the captured speed token). -/
def speedTok (cs : List Char) : Option (List Char × List Char) :=
  match sizeTok cs with
  | some (tok, rest) =>
    match rest with
    | '/' :: 's' :: t => some (tok ++ ['/', 's'], t)
    | _ => none
  | none => none

/-- Optional tail `(?:,\s*(SIZE)\s*\|\s*(SPEED))?` of the receiving pattern. -/
def recvTail (cs : List Char) : Option (String × String) :=
  match cs with
  | ',' :: r1 =>
    match sizeTok (r1.dropWhile Char.isWhitespace) with
    | some (sz, r2) =>
      match r2.dropWhile Char.isWhitespace with
      | '|' :: r3 =>
        match speedTok (r3.dropWhile Char.isWhitespace) with
        | some (sp, _) => some (String.mk sz, String.mk sp)
        | none => none
      | _ => none
    | none => none
  | _ => none

/-- The `Receiving objects:` pattern tried at one fixed position. -/
def matchReceivingAt (cs : List Char) : Option ProgressInfo :=
  match dropLit "Receiving objects:".toList cs with
  | none => none
  | some r1 =>
    match matchPCT r1 with
    | none => none
    | some (p, c, t, r2) =>
      match recvTail r2 with
      | some (sz, sp) =>
        some { type := "receiving", percent := p, current := c, total := t,
               size := some sz, speed := some sp }
      | none =>
        some { type := "receiving", percent := p, current := c, total := t }

/-- The `Resolving deltas:` pattern tried at one fixed position. -/
def matchResolvingAt (cs : List Char) : Option ProgressInfo :=
  match dropLit "Resolving deltas:".toList cs with
  | none => none
  | some r1 =>
    match matchPCT r1 with
    | none => none
    | some (p, c, t, _) =>
      some { type := "resolving", percent := p, current := c, total := t }

/-- The `(Compressing|Decompressing) objects:` pattern tried at one fixed
position; the type is the matched operation word, lowercased. -/
def matchCompressionAt (cs : List Char) : Option ProgressInfo :=
  let attempt := fun (word ty : String) =>
    match dropLit (word ++ " objects:").toList cs with
    | none => none
    | some r1 =>
      match matchPCT r1 with
      | none => none
      | some (p, c, t, _) =>
        some { type := ty, percent := p, current := c, total := t }
  match attempt "Compressing" "compressing" with
  | some r => some r
  | none => attempt "Decompressing" "decompressing"

/-- Leftmost-position scan of `re.search`: try the matcher at every suffix,
leftmost first. -/
def searchAux {α : Type} (f : List Char → Option α) : List Char → Option α
  | [] => f []
  | c :: cs =>
    match f (c :: cs) with
    | some r => some r
    | none => searchAux f cs

/-- `parse_git_progress` from git_operations.py: try the receiving, resolving
and compression patterns in that order; unmatched lines yield `none`. -/
def parse_git_progress (line : String) : Option ProgressInfo :=
  let cs := line.toList
  match searchAux matchReceivingAt cs with
  | some r => some r
  | none =>
    match searchAux matchResolvingAt cs with
    | some r => some r
    | none => searchAux matchCompressionAt cs

/-! ## Repository registry store (config_manager.py) -/

/-- One registry entry, the dicts `{"name": ..., "url": ..., "path": ...}` of
config_manager.py; `path` is `None` when no clone location is known. -/
structure RepoRecord where
  name : String
  url : String
  path : Option String
  deriving DecidableEq, Repr

/-- Path constants of config_manager.py lines 5-8 (`~` left unexpanded). -/
def CONFIG_DIR : String := "~/.config/gittty"

/-- Path of the structured JSON registry file. -/
def REPOS_FILE_JSON : String := CONFIG_DIR ++ "/frequent_repos.json"

/-- Path of the legacy line-oriented registry file. -/
def REPOS_FILE_TXT_OLD : String := CONFIG_DIR ++ "/frequent_repos.txt"

/-- Backup path used for a corrupted structured file, line 48 of
config_manager.py: the fixed `.bak` suffix appended to the JSON path. -/
def corrupted_backup_path : String := REPOS_FILE_JSON ++ ".bak"

/-- Contents of the structured registry file, abstracted by the outcome of
`json.load` on its bytes: either they parse to a record list or parsing fails
(`JSONDecodeError`), in which case the raw bytes are carried unchanged. -/
inductive JsonFile where
  | good (records : List RepoRecord)
  | bad (raw : String)
  deriving DecidableEq, Repr

/-- The slice of the filesystem the registry store touches: the structured
file at `REPOS_FILE_JSON`, the legacy file at `REPOS_FILE_TXT_OLD` (raw text),
and the backup file at `corrupted_backup_path`; `none` means absent. -/
structure FS where
  jsonFile : Option JsonFile
  txtFile : Option String
  bakFile : Option JsonFile
  deriving DecidableEq, Repr

/-- The url list read from a legacy file, line 19 of config_manager.py:
each line stripped of surrounding whitespace, empty results dropped. -/
def legacyUrls (raw : String) : List String :=
  ((splitLines raw).map trimStr).filter (fun l => l != "")

/-- Record list produced by `_migrate_from_txt_to_json` (lines 14-29): one
record per retained line, `name = url`, `path = None`, file order kept. -/
def migratedRepos (raw : String) : List RepoRecord :=
  (legacyUrls raw).map (fun u => { name := u, url := u, path := none })

/-- `load_frequent_repos` (lines 32-57) as a state transformer: returns the
record list and the filesystem after any migration or corruption backup. -/
def load_frequent_repos (fs : FS) : List RepoRecord × FS :=
  match fs.jsonFile with
  | none =>
    match fs.txtFile with
    | some raw =>
      let repos := migratedRepos raw
      (repos, { fs with jsonFile := some (.good repos), txtFile := none })
    | none => ([], fs)
  | some (.good rs) => (rs, fs)
  | some (.bad raw) => ([], { fs with jsonFile := none, bakFile := some (.bad raw) })

/-- In-memory upsert step of `add_frequent_repo` (lines 67-82): the first
record with the same url, if any, keeps its fields but has its `path`
overwritten by the incoming record's `path`; otherwise the record is appended. -/
def add_frequent_repo (repos : List RepoRecord) (repo_to_add : RepoRecord) : List RepoRecord :=
  match repos with
  | [] => [repo_to_add]
  | r :: rest =>
    if r.url == repo_to_add.url then
      { name := r.name, url := r.url, path := repo_to_add.path } :: rest
    else
      r :: add_frequent_repo rest repo_to_add

/-! ## Clone command construction (`clone_repository`, git_operations.py lines 258-269) -/

/-- Argument vector built by `clone_repository` (lines 264-269). Python's
`if branch_or_tag:` is truthiness, so an empty string behaves like `None`. -/
def clone_command (repo_url destination_path : String) (branch_or_tag : Option String)
    (shallow : Bool) : List String :=
  ["git", "clone", "--progress"]
    ++ (match branch_or_tag with
        | some b => if b != "" then ["--branch", b] else []
        | none => [])
    ++ (if shallow then ["--depth", "1"] else [])
    ++ [repo_url, destination_path]

/-- Modelled from the spec: the command shape
`<vcs> clone [--branch <ref>] [--depth 1] <url> <destination>` — base clone
verb, optional branch, optional depth, url, destination, nothing else. -/
def clone_command_spec (repo_url destination_path : String) (branch_or_tag : Option String)
    (shallow : Bool) : List String :=
  ["git", "clone"]
    ++ (match branch_or_tag with
        | some b => ["--branch", b]
        | none => [])
    ++ (if shallow then ["--depth", "1"] else [])
    ++ [repo_url, destination_path]

/-! ## Pull workflow (`pull_repository`, git_operations.py lines 382-511)

The environment fixes everything the code observes from the outside world:
whether the path is a checkout, the `git status --porcelain` output, the
successive interactive answers of `ask_to_stash_changes` (indexed by call
order), and the exit codes of the stash push, the pull, and the stash pop.
The result records the returned boolean, every git command spawned in order,
and whether the could-not-restore warning was printed. -/

/-- External observations consumed by one `pull_repository` run. -/
structure PullEnv where
  isGitRepo : Bool
  statusOutput : String
  ask : Nat → Bool
  stashExitCode : Int
  pullExitCode : Int
  popExitCode : Int

/-- Observable outcome of one `pull_repository` run. -/
structure PullResult where
  success : Bool
  commands : List (List String)
  popFailWarning : Bool
  deriving DecidableEq, Repr

/-- The `git status --porcelain` invocation (line 399). -/
def statusCmd : List String := ["git", "status", "--porcelain"]

/-- The stash push invocation with its fixed tag (line 425). -/
def stashCmd : List String := ["git", "stash", "push", "-m", "GitTTY auto-stash before pull"]

/-- The pull invocation (line 442). -/
def pullCmd : List String := ["git", "pull", "--progress"]

/-- The stash pop invocation (line 475). -/
def popCmd : List String := ["git", "stash", "pop"]

/-- Lines 440-504: run the pull; on success, line 468 re-asks
`ask_to_stash_changes` (second call when the tree was dirty) and only then
pops, warning when the pop fails; the function returns True on pull success
regardless of the pop, and False on pull failure. -/
def pullPhase (env : PullEnv) (cmds : List (List String)) (hasChanges : Bool) : PullResult :=
  let cmds := cmds ++ [pullCmd]
  if env.pullExitCode == 0 then
    if hasChanges && env.ask 1 then
      { success := true, commands := cmds ++ [popCmd],
        popFailWarning := env.popExitCode != 0 }
    else
      { success := true, commands := cmds, popFailWarning := false }
  else
    { success := false, commands := cmds, popFailWarning := false }

/-- `pull_repository`: reject non-checkouts (line 384); run the status query;
when dirty and the first `ask_to_stash_changes` answer is yes, stash push and
abort on its failure (lines 410-438); then the pull phase. -/
def pull_repository (env : PullEnv) : PullResult :=
  if !env.isGitRepo then
    { success := false, commands := [], popFailWarning := false }
  else
    let cmds := [statusCmd]
    let hasChanges := trimStr env.statusOutput != ""
    if hasChanges && env.ask 0 then
      let cmds := cmds ++ [stashCmd]
      if env.stashExitCode != 0 then
        { success := false, commands := cmds, popFailWarning := false }
      else
        pullPhase env cmds hasChanges
    else
      pullPhase env cmds hasChanges

/-! ## Theorems: error translator claims -/

/-- C3 counterexample: the spec's rule-5 substring (without the leading
"your ") occurs in this stderr text and none of the four earlier rules'
substrings do, yet the translator lands in the `Unknown` fallback, because the
source's fifth test is for the longer string
"your local changes to the following files would be overwritten by merge". -/
theorem C3_counterexample :
    let s := "local changes to the following files would be overwritten by merge"
    containsSub (toLowerStr s) "local changes to the following files would be overwritten by merge" = true ∧
    containsSub (toLowerStr s) "repository not found" = false ∧
    containsSub (toLowerStr s) "authentication failed" = false ∧
    containsSub (toLowerStr s) "permission denied (publickey)" = false ∧
    containsSub (toLowerStr s) "could not resolve host" = false ∧
    translate_git_error_category s ≠ ErrorCategory.WorkingTreeWouldBeOverwritten := by
  decide

/-- C3 amended: for every stderr text whose lowercasing contains
"your local changes to the following files would be overwritten by merge" and
none of the four earlier rules' substrings, the translator returns
`WorkingTreeWouldBeOverwritten`. -/
theorem C3_amended (s : String)
    (h1 : containsSub (toLowerStr s) "repository not found" = false)
    (h2 : containsSub (toLowerStr s) "authentication failed" = false)
    (h3 : containsSub (toLowerStr s) "permission denied (publickey)" = false)
    (h4 : containsSub (toLowerStr s) "could not resolve host" = false)
    (h5 : containsSub (toLowerStr s)
        "your local changes to the following files would be overwritten by merge" = true) :
    translate_git_error_category s = ErrorCategory.WorkingTreeWouldBeOverwritten := by
  unfold translate_git_error_category
  simp only [h1, h2, h3, h4, h5]
  rfl

/-- C3 witness: a concrete stderr text satisfying the amended hypotheses is
classified `WorkingTreeWouldBeOverwritten`. -/
theorem C3_witness :
    containsSub (toLowerStr "error: Your local changes to the following files would be overwritten by merge:")
        "your local changes to the following files would be overwritten by merge" = true ∧
    translate_git_error_category "error: Your local changes to the following files would be overwritten by merge:"
        = ErrorCategory.WorkingTreeWouldBeOverwritten :=
  ⟨by decide,
   C3_amended "error: Your local changes to the following files would be overwritten by merge:"
     (by decide) (by decide) (by decide) (by decide) (by decide)⟩

/-- C4 counterexample: "boom" matches none of the seven rules and the
translator returns the `Unknown` category, but its remediation message is not
the raw stderr text unmodified — the source wraps the stripped text in a
fixed banner. -/
theorem C4_counterexample :
    translate_git_error_category "boom" = ErrorCategory.Unknown ∧
    translate_git_error "boom" ≠ "boom" ∧
    translate_git_error "boom"
      = "An unexpected Git error occurred. Raw error:\n---\nboom\n---" := by
  decide

/-- C4 amended: for every stderr text matching none of the seven fixed
substring rules, the translator returns the `Unknown` category, and the
remediation is the fixed fallback banner with the whitespace-stripped stderr
embedded between its separator lines. -/
theorem C4_amended (s : String)
    (h1 : containsSub (toLowerStr s) "repository not found" = false)
    (h2 : containsSub (toLowerStr s) "authentication failed" = false)
    (h3 : containsSub (toLowerStr s) "permission denied (publickey)" = false)
    (h4 : containsSub (toLowerStr s) "could not resolve host" = false)
    (h5 : containsSub (toLowerStr s)
        "your local changes to the following files would be overwritten by merge" = false)
    (h6 : containsSub (toLowerStr s) "not a git repository" = false)
    (h7 : containsSub (toLowerStr s) "already exists and is not an empty directory" = false) :
    translate_git_error_category s = ErrorCategory.Unknown ∧
    translate_git_error s
      = "An unexpected Git error occurred. Raw error:\n---\n" ++ trimStr s ++ "\n---" := by
  have hc : translate_git_error_category s = ErrorCategory.Unknown := by
    unfold translate_git_error_category
    simp only [h1, h2, h3, h4, h5, h6, h7]
    rfl
  refine ⟨hc, ?_⟩
  unfold translate_git_error
  rw [hc]
  rfl

/-- C4 witness: the amended statement evaluated at the unmatched stderr text
"fatal: weird failure". -/
theorem C4_witness :
    containsSub (toLowerStr "fatal: weird failure") "repository not found" = false ∧
    translate_git_error_category "fatal: weird failure" = ErrorCategory.Unknown ∧
    translate_git_error "fatal: weird failure"
      = "An unexpected Git error occurred. Raw error:\n---\n" ++ trimStr "fatal: weird failure" ++ "\n---" :=
  ⟨by decide,
   (C4_amended "fatal: weird failure" (by decide) (by decide) (by decide) (by decide)
      (by decide) (by decide) (by decide)).1,
   (C4_amended "fatal: weird failure" (by decide) (by decide) (by decide) (by decide)
      (by decide) (by decide) (by decide)).2⟩

/-- C5 counterexample: with no branch and no shallow flag the built clone
command is `git clone --progress <url> <destination>` — the `--progress` flag
is interposed right after the clone verb, so the command differs from the
spec's exact shape `git clone <url> <destination>`. -/
theorem C5_counterexample :
    clone_command "https://example.com/r.git" "/tmp/r" none false
      ≠ clone_command_spec "https://example.com/r.git" "/tmp/r" none false ∧
    clone_command "https://example.com/r.git" "/tmp/r" none false
      = ["git", "clone", "--progress", "https://example.com/r.git", "/tmp/r"] := by
  decide

/-- C5 amended: for every url, destination, branch/tag (non-empty when
supplied) and shallow flag, the built command is the spec shape with a single
fixed `--progress` flag inserted directly after the clone verb: base verb,
`--progress`, optional `--branch <ref>`, optional `--depth 1`, url,
destination, nothing else and in that order. -/
theorem C5_amended (repo_url destination_path : String) (branch_or_tag : Option String)
    (shallow : Bool) (hb : branch_or_tag ≠ some "") :
    clone_command repo_url destination_path branch_or_tag shallow =
      ["git", "clone", "--progress"]
        ++ (clone_command_spec repo_url destination_path branch_or_tag shallow).drop 2 := by
  cases branch_or_tag with
  | none => cases shallow <;> simp [clone_command, clone_command_spec]
  | some b =>
    have hb' : (b != "") = true := by
      cases hbe : b == "" with
      | true => exact absurd (congrArg some (eq_of_beq hbe)) hb
      | false => simp [bne, hbe]
    cases shallow <;> simp [clone_command, clone_command_spec, hb']

/-- C5 witness: the amended statement at a concrete branch and shallow clone. -/
theorem C5_witness :
    (some "main" : Option String) ≠ some "" ∧
    clone_command "https://example.com/r.git" "/tmp/r" (some "main") true =
      ["git", "clone", "--progress"]
        ++ (clone_command_spec "https://example.com/r.git" "/tmp/r" (some "main") true).drop 2 :=
  ⟨by decide, C5_amended "https://example.com/r.git" "/tmp/r" (some "main") true (by decide)⟩

/-- C6: the sample line "Receiving objects: 45% (450/1000), 2.3 MiB | 1.2 MiB/s"
parses to the receiving phase with percent 45, current 450, total 1000, and
the size and speed substrings captured verbatim. -/
theorem C6_receiving_line_parses :
    parse_git_progress "Receiving objects: 45% (450/1000), 2.3 MiB | 1.2 MiB/s"
      = some { type := "receiving", percent := 45, current := 450, total := 1000,
               size := some "2.3 MiB", speed := some "1.2 MiB/s" } := by
  decide

/-! ## Theorems: pull workflow claims -/

/-- A concrete pull environment: valid checkout, dirty status output, every
interactive prompt declined, all external commands would succeed. -/
def envC1 : PullEnv :=
  { isGitRepo := true, statusOutput := " M file.txt\n", ask := fun _ => false,
    stashExitCode := 0, pullExitCode := 0, popExitCode := 0 }

/-- C1 counterexample: on a dirty working tree with the stash prompt declined
the engine still invokes the pull command and returns the pull's success — it
does not terminate in any aborted-dirty outcome, and the pull command is
invoked rather than never run. -/
theorem C1_counterexample :
    (trimStr envC1.statusOutput != "") = true ∧
    envC1.ask 0 = false ∧
    pullCmd ∈ (pull_repository envC1).commands ∧
    (pull_repository envC1).success = true := by
  decide

/-- C1 amended: for every pull on a repository whose status query returns a
non-empty (dirty) result, if the operator declines the stash prompt the engine
skips the stash push but proceeds to invoke the pull command anyway; the
workflow result is simply the pull command's success. -/
theorem C1_amended (env : PullEnv)
    (hrepo : env.isGitRepo = true)
    (hdirty : (trimStr env.statusOutput != "") = true)
    (hdecl : env.ask 0 = false) :
    stashCmd ∉ (pull_repository env).commands ∧
    pullCmd ∈ (pull_repository env).commands ∧
    (pull_repository env).success = (env.pullExitCode == 0) := by
  have hmain : pull_repository env = pullPhase env [statusCmd] true := by
    unfold pull_repository
    rw [hrepo]
    simp [hdirty, hdecl]
  rw [hmain]
  unfold pullPhase
  cases h0 : env.pullExitCode == 0 <;> cases h1 : env.ask 1 <;>
    simp [h0, h1, statusCmd, stashCmd, pullCmd, popCmd]

/-- C1 witness: the amended statement evaluated at the concrete environment
`envC1`. -/
theorem C1_witness :
    envC1.isGitRepo = true ∧
    (trimStr envC1.statusOutput != "") = true ∧
    envC1.ask 0 = false ∧
    (stashCmd ∉ (pull_repository envC1).commands ∧
     pullCmd ∈ (pull_repository envC1).commands ∧
     (pull_repository envC1).success = (envC1.pullExitCode == 0)) :=
  ⟨rfl, by decide, rfl, C1_amended envC1 rfl (by decide) rfl⟩

/-- The failing input for C2: dirty working tree, first stash prompt answered
yes (so the changes are stashed), stash push and pull both succeed, and the
re-asked prompt of line 468 answered no. -/
def envC2 : PullEnv :=
  { isGitRepo := true, statusOutput := " M file.txt\n", ask := fun n => n == 0,
    stashExitCode := 0, pullExitCode := 0, popExitCode := 0 }

/-- C2: at the failing input the operator accepted stashing and the stash push
ran, the pull succeeded, yet the engine never attempts the stash pop and
returns plain success with no warning — because line 468 guards the pop with
a second `ask_to_stash_changes()` call instead of reusing the first answer,
contradicting the prompt's own promise to "stash them, pull, and then
reapply" and the spec's rule that a leftover stash is never silently
dropped. -/
theorem C2_code_bug_eval :
    envC2.ask 0 = true ∧
    stashCmd ∈ (pull_repository envC2).commands ∧
    envC2.stashExitCode = 0 ∧
    envC2.pullExitCode = 0 ∧
    popCmd ∉ (pull_repository envC2).commands ∧
    (pull_repository envC2).success = true ∧
    (pull_repository envC2).popFailWarning = false := by
  decide

/-! ## Theorems: registry store claims -/

/-- Urls present after an upsert come from the old registry or the added
record. -/
theorem add_url_mem (repos : List RepoRecord) (r : RepoRecord) (u : String)
    (h : u ∈ (add_frequent_repo repos r).map RepoRecord.url) :
    u ∈ repos.map RepoRecord.url ∨ u = r.url := by
  induction repos with
  | nil => simpa [add_frequent_repo] using h
  | cons x xs ih =>
    unfold add_frequent_repo at h
    cases hbeq : x.url == r.url with
    | true =>
      rw [hbeq] at h
      simp only [if_true, List.map_cons, List.mem_cons] at h
      rcases h with h | h
      · exact Or.inl (by simp [h])
      · exact Or.inl (by simp [h])
    | false =>
      rw [hbeq] at h
      simp only [Bool.false_eq_true, if_false, List.map_cons, List.mem_cons] at h
      rcases h with h | h
      · exact Or.inl (by simp [h])
      · rcases ih h with h' | h'
        · exact Or.inl (by simp [h'])
        · exact Or.inr h'

/-- An upsert preserves distinctness of the urls. -/
theorem add_nodup (repos : List RepoRecord) (r : RepoRecord)
    (h : (repos.map RepoRecord.url).Nodup) :
    ((add_frequent_repo repos r).map RepoRecord.url).Nodup := by
  induction repos with
  | nil => simp [add_frequent_repo]
  | cons x xs ih =>
    rw [List.map_cons, List.nodup_cons] at h
    obtain ⟨hx, hxs⟩ := h
    unfold add_frequent_repo
    cases hbeq : x.url == r.url with
    | true =>
      rw [if_pos rfl]
      simp only [List.map_cons, List.nodup_cons]
      exact ⟨hx, hxs⟩
    | false =>
      rw [if_neg Bool.false_ne_true]
      simp only [List.map_cons, List.nodup_cons]
      refine ⟨fun hmem => ?_, ih hxs⟩
      rcases add_url_mem xs r x.url hmem with h' | h'
      · exact hx h'
      · exact ne_of_beq_false hbeq h'

/-- Upserting an already-present url keeps the registry length unchanged. -/
theorem add_length_of_mem (repos : List RepoRecord) (r : RepoRecord)
    (h : r.url ∈ repos.map RepoRecord.url) :
    (add_frequent_repo repos r).length = repos.length := by
  induction repos with
  | nil => simp at h
  | cons x xs ih =>
    unfold add_frequent_repo
    cases hbeq : x.url == r.url with
    | true =>
      rw [if_pos rfl]
      simp
    | false =>
      rw [if_neg Bool.false_ne_true]
      simp only [List.length_cons]
      have hxs : r.url ∈ xs.map RepoRecord.url := by
        rw [List.map_cons] at h
        rcases List.mem_cons.mp h with h' | h'
        · exact absurd h'.symm (ne_of_beq_false hbeq)
        · exact h'
      rw [ih hxs]

/-- Upserting a fresh url appends exactly one record at the end. -/
theorem add_append_of_not_mem (repos : List RepoRecord) (r : RepoRecord)
    (h : r.url ∉ repos.map RepoRecord.url) :
    add_frequent_repo repos r = repos ++ [r] := by
  induction repos with
  | nil => simp [add_frequent_repo]
  | cons x xs ih =>
    have hne : x.url ≠ r.url := by
      intro he
      exact h (by simp [he])
    unfold add_frequent_repo
    cases hbeq : x.url == r.url with
    | true => exact absurd (eq_of_beq hbeq) hne
    | false =>
      rw [if_neg Bool.false_ne_true]
      simp only [List.cons_append, List.cons.injEq, true_and]
      exact ih fun hm => h (by simp [hm])

/-- Distinctness of urls survives any whole sequence of upserts. -/
theorem foldl_add_nodup (adds init : List RepoRecord)
    (h : (init.map RepoRecord.url).Nodup) :
    ((adds.foldl add_frequent_repo init).map RepoRecord.url).Nodup := by
  induction adds generalizing init with
  | nil => simpa using h
  | cons a rest ih => exact ih _ (add_nodup init a h)

/-- C7: starting from a url-unique registry, any sequence of `add` calls keeps
at most one record per url; an add whose url already exists keeps the length
(updates in place), and an add with a fresh url appends exactly one record. -/
theorem C7_upsert_invariant (init adds : List RepoRecord)
    (h : (init.map RepoRecord.url).Nodup) :
    ((adds.foldl add_frequent_repo init).map RepoRecord.url).Nodup ∧
    (∀ repos r, r.url ∈ repos.map RepoRecord.url →
        (add_frequent_repo repos r).length = repos.length) ∧
    (∀ repos r, r.url ∉ repos.map RepoRecord.url →
        add_frequent_repo repos r = repos ++ [r]) :=
  ⟨foldl_add_nodup adds init h, add_length_of_mem, add_append_of_not_mem⟩

/-- C7 witness: two adds with the same url onto the empty registry leave the
url list duplicate-free. -/
theorem C7_witness :
    ((([] : List RepoRecord)).map RepoRecord.url).Nodup ∧
    ((([⟨"a", "u", none⟩, ⟨"b", "u", some "p"⟩] : List RepoRecord).foldl
        add_frequent_repo []).map RepoRecord.url).Nodup :=
  ⟨by simp, (C7_upsert_invariant [] [⟨"a", "u", none⟩, ⟨"b", "u", some "p"⟩] (by simp)).1⟩

/-- C10: when a record with the same url already exists, `add_frequent_repo`
rewrites exactly that first matching record: name and url are kept, its path
becomes the incoming path (so an incoming `path = none` erases a stored
path), and every other record is untouched. -/
theorem C10_upsert_path_overwrite (pre post : List RepoRecord) (x r : RepoRecord)
    (hpre : ∀ y ∈ pre, y.url ≠ r.url) (hx : x.url = r.url) :
    add_frequent_repo (pre ++ x :: post) r =
      pre ++ { name := x.name, url := x.url, path := r.path } :: post := by
  induction pre with
  | nil =>
    simp only [List.nil_append]
    unfold add_frequent_repo
    rw [show (x.url == r.url) = true from beq_iff_eq.mpr hx, if_pos rfl]
  | cons p ps ih =>
    have hne : p.url ≠ r.url := hpre p (by simp)
    simp only [List.cons_append]
    unfold add_frequent_repo
    cases hbeq : p.url == r.url with
    | true => exact absurd (eq_of_beq hbeq) hne
    | false =>
      rw [if_neg Bool.false_ne_true]
      simp only [List.cons.injEq, true_and]
      exact ih fun y hy => hpre y (by simp [hy])

/-- C10 witness: adding a record with url "u" and no path over a registry
holding a stored path for "u" erases that path. -/
theorem C10_witness :
    (∀ y ∈ ([] : List RepoRecord), y.url ≠ ("u" : String)) ∧
    add_frequent_repo ([] ++ (⟨"n", "u", some "old"⟩ : RepoRecord) :: []) ⟨"m", "u", none⟩
      = [] ++ ({ name := "n", url := "u", path := none } : RepoRecord) :: [] :=
  ⟨by simp, C10_upsert_path_overwrite [] [] ⟨"n", "u", some "old"⟩ ⟨"m", "u", none⟩ (by simp) rfl⟩

/-- C8: with no structured store and a legacy file present, `load` migrates:
it returns one record per retained legacy line in file order, each with
`name = url` and `path = none`, writes those records to the structured store,
deletes the legacy file, and a second `load` performs no further change and
returns the same records. -/
theorem C8_migration (fs : FS) (raw : String)
    (hjson : fs.jsonFile = none) (htxt : fs.txtFile = some raw)
    (hdistinct : (legacyUrls raw).Nodup) :
    (load_frequent_repos fs).1 = migratedRepos raw ∧
    (load_frequent_repos fs).1.length = (legacyUrls raw).length ∧
    (∀ rec ∈ (load_frequent_repos fs).1, rec.name = rec.url ∧ rec.path = none) ∧
    (load_frequent_repos fs).2.jsonFile = some (JsonFile.good (migratedRepos raw)) ∧
    (load_frequent_repos fs).2.txtFile = none ∧
    load_frequent_repos (load_frequent_repos fs).2
      = ((load_frequent_repos fs).1, (load_frequent_repos fs).2) := by
  have hload : load_frequent_repos fs
      = (migratedRepos raw,
         { fs with jsonFile := some (JsonFile.good (migratedRepos raw)), txtFile := none }) := by
    unfold load_frequent_repos
    rw [hjson, htxt]
  rw [hload]
  refine ⟨rfl, by simp [migratedRepos], ?_, rfl, rfl, rfl⟩
  intro rec hrec
  obtain ⟨u, _, hu⟩ := List.mem_map.mp hrec
  rw [← hu]
  exact ⟨rfl, rfl⟩

/-- A concrete filesystem with only a two-url legacy file. -/
def fsC8 : FS :=
  { jsonFile := none, txtFile := some "https://a\n \nhttps://b\n", bakFile := none }

/-- C8 witness: the migration statement evaluated on `fsC8`. -/
theorem C8_witness :
    fsC8.jsonFile = none ∧
    fsC8.txtFile = some "https://a\n \nhttps://b\n" ∧
    (legacyUrls "https://a\n \nhttps://b\n").Nodup ∧
    ((load_frequent_repos fsC8).1 = migratedRepos "https://a\n \nhttps://b\n" ∧
     (load_frequent_repos fsC8).1.length = (legacyUrls "https://a\n \nhttps://b\n").length ∧
     (∀ rec ∈ (load_frequent_repos fsC8).1, rec.name = rec.url ∧ rec.path = none) ∧
     (load_frequent_repos fsC8).2.jsonFile
       = some (JsonFile.good (migratedRepos "https://a\n \nhttps://b\n")) ∧
     (load_frequent_repos fsC8).2.txtFile = none ∧
     load_frequent_repos (load_frequent_repos fsC8).2
       = ((load_frequent_repos fsC8).1, (load_frequent_repos fsC8).2)) :=
  ⟨rfl, rfl, by decide, C8_migration fsC8 "https://a\n \nhttps://b\n" rfl rfl (by decide)⟩

/-- C9: when the structured store's bytes fail to parse, `load` returns the
empty list, the store file is moved aside with its bytes unchanged, and the
backup path is exactly the store path with the fixed ".bak" suffix appended. -/
theorem C9_corrupt_backup (fs : FS) (raw : String)
    (h : fs.jsonFile = some (JsonFile.bad raw)) :
    load_frequent_repos fs
      = ([], { fs with jsonFile := none, bakFile := some (JsonFile.bad raw) }) ∧
    corrupted_backup_path = REPOS_FILE_JSON ++ ".bak" := by
  constructor
  · unfold load_frequent_repos
    rw [h]
  · rfl

/-- A concrete filesystem whose structured store holds unparseable bytes. -/
def fsC9 : FS :=
  { jsonFile := some (JsonFile.bad "corrupted bytes ~~"), txtFile := none, bakFile := none }

/-- C9 witness: the corruption statement evaluated on `fsC9`. -/
theorem C9_witness :
    fsC9.jsonFile = some (JsonFile.bad "corrupted bytes ~~") ∧
    (load_frequent_repos fsC9
       = ([], { fsC9 with jsonFile := none, bakFile := some (JsonFile.bad "corrupted bytes ~~") }) ∧
     corrupted_backup_path = REPOS_FILE_JSON ++ ".bak") :=
  ⟨rfl, C9_corrupt_backup fsC9 "corrupted bytes ~~" rfl⟩
